import Mathlib

/-!
Verification of the WebRTC-to-RTSP bridge
(plugins/webrtc/src/wrtc-to-rtsp.ts, function createRTCPeerConnectionSource).

The source is single-threaded, event-driven TypeScript.  Each component is
shallowly embedded as a pure Lean function over an explicit state, returning
the updated state together with a trace of the observable actions it
performed, in the order the source performs them.  External collaborators
(the RTSP sink, the ffmpeg forwarder process, the signaling channel) appear
only through the actions the bridge invokes on them, matching the interface
boundary of the design.
-/

namespace WrtcToRtsp

/-! ## Intercom bridge (startIntercom / stopIntercom)

Source: the object literal assigned to the local `ic` inside
createRTCPeerConnectionSource.  State captured by the closure:
the mutable variable `destroyProcess` (the kill handle of the most recently
spawned forwarder process, `undefined` until a start succeeds; note the
source never clears it in stopIntercom), plus, for reasoning about
liveness of pipelines, the set of spawned-but-not-killed process ids.
Observable actions are the spawn of a forwarder process, the invocation of
a kill handle, and the playback-state signals sent to the session control
handle.  Process ids are allocated by a counter so that distinct spawns are
distinguishable. -/

/-- An observable action of the intercom bridge, in program order. -/
inductive IntercomAction where
  /-- `startRtpForwarderProcess` resolved with a kill handle for process `pid`. -/
  | spawn (pid : Nat)
  /-- the stored `destroyProcess` kill handle for process `pid` was invoked. -/
  | kill (pid : Nat)
  /-- `sc.setPlayback({audio, video})` was invoked on the session control handle. -/
  | setPlayback (audio video : Bool)
deriving DecidableEq, Repr

/-- Closure state of the intercom bridge. `destroyProcess` is the source's
mutable `destroyProcess` variable (`none` = `undefined`); `alive` lists the
pids of spawned processes whose kill handle has not been invoked; `nextId`
allocates fresh pids. -/
structure IntercomState where
  nextId : Nat
  alive : List Nat
  destroyProcess : Option Nat
deriving DecidableEq, Repr

/-- The intercom bridge state of a freshly started bridge: no process ever
spawned, `destroyProcess` still `undefined`. -/
def initIntercomState : IntercomState := ⟨0, [], none⟩

/-- Source `stopIntercom` body: `destroyProcess?.()` (a no-op call when
`destroyProcess` is `undefined`; the variable is NOT cleared), then
`sc.setPlayback({audio: false, video: false})`.  The body contains no await,
so it runs atomically. -/
def stopIntercom (s : IntercomState) : IntercomState × List IntercomAction :=
  match s.destroyProcess with
  | some pid =>
      ({ s with alive := s.alive.erase pid },
       [.kill pid, .setPlayback false false])
  | none => (s, [.setPlayback false false])

/-- Source `startIntercom` success path (peer connection alive and audio
sender negotiated): `await startRtpForwarderProcess(...)` spawns the new
forwarder process and yields its kill handle `destroy`; then
`ic.stopIntercom()` runs (killing the PREVIOUS process, since
`destroyProcess` is only reassigned on the next line); then
`destroyProcess = destroy`; then `sc.setPlayback({audio: true, video: false})`. -/
def startIntercom (s : IntercomState) : IntercomState × List IntercomAction :=
  let pid := s.nextId
  let s1 : IntercomState :=
    { s with nextId := pid + 1, alive := s.alive ++ [pid] }
  let stopped := stopIntercom s1
  let s2 : IntercomState := { stopped.1 with destroyProcess := some pid }
  (s2, .spawn pid :: stopped.2 ++ [.setPlayback true false])

/-- Projection used to talk about the order of actions in a trace. -/
def IntercomAction.isPlayback : IntercomAction → Bool
  | .setPlayback _ _ => true
  | _ => false

end WrtcToRtsp

namespace WrtcToRtsp

/-- C2, counterexample.  On a fresh bridge, run startIntercom twice and
concatenate the two action traces.  The claim says the pipeline created by
the first call (pid 0) is stopped before the pipeline of the second call
(pid 1) is started; in the actual trace the kill of pid 0 comes strictly
after the spawn of pid 1, so the claimed ordering is false. -/
theorem startIntercom_replace_order_cex :
    ¬ (((startIntercom initIntercomState).2 ++
          (startIntercom (startIntercom initIntercomState).1).2).indexOf
            (IntercomAction.kill 0) <
        ((startIntercom initIntercomState).2 ++
          (startIntercom (startIntercom initIntercomState).1).2).indexOf
            (IntercomAction.spawn 1)) := by
  decide

/-- C2, amended.  Starting from a fresh bridge state (no pipeline spawned,
`destroyProcess` unset, arbitrary pid counter), two successive successful
startIntercom calls leave exactly one pipeline alive (the second one), and
the first pipeline is stopped during the second call: after the second
pipeline is spawned and before the second call completes, as the second
call's literal trace shows. -/
theorem startIntercom_twice (n : Nat) :
    (startIntercom (startIntercom ⟨n, [], none⟩).1).1.alive = [n + 1] ∧
    (startIntercom ⟨n, [], none⟩).1.alive = [n] ∧
    (startIntercom (startIntercom ⟨n, [], none⟩).1).2 =
      [.spawn (n + 1), .kill n, .setPlayback false false,
        .setPlayback true false] := by
  refine ⟨?_, ?_, ?_⟩ <;> simp [startIntercom, stopIntercom]

/-- C2, witness for the amended theorem at pid counter 0. -/
theorem startIntercom_twice_witness :
    (startIntercom (startIntercom ⟨0, [], none⟩).1).1.alive = [0 + 1] ∧
    (startIntercom ⟨0, [], none⟩).1.alive = [0] ∧
    (startIntercom (startIntercom ⟨0, [], none⟩).1).2 =
      [.spawn (0 + 1), .kill 0, .setPlayback false false,
        .setPlayback true false] :=
  startIntercom_twice 0

/-- C3, counterexample.  stopIntercom on a bridge whose intercom was never
started still performs an observable action (its action trace is nonempty:
it signals playback state to the session control handle), contradicting
the claim that it performs no observable action. -/
theorem stopIntercom_noop_cex :
    ¬ ((stopIntercom initIntercomState).2 = []) := by
  decide

/-- C3, amended.  When no pipeline is active (`destroyProcess` unset),
stopIntercom raises no error, kills nothing, leaves the state unchanged and
emits exactly the playback signal with audio and video false — so repeated
calls are safe and each behaves identically.  Moreover, for every state,
stopIntercom never invents a kill: any kill handle it invokes is exactly the
stored `destroyProcess`, and that variable is never cleared by the call. -/
theorem stopIntercom_no_pipeline (s : IntercomState) :
    (s.destroyProcess = none →
      (stopIntercom s).1 = s ∧
        (stopIntercom s).2 = [.setPlayback false false]) ∧
    (stopIntercom s).1.destroyProcess = s.destroyProcess ∧
    (∀ p : Nat, IntercomAction.kill p ∈ (stopIntercom s).2 →
      s.destroyProcess = some p) := by
  refine ⟨fun h => ?_, ?_, fun p hp => ?_⟩
  · simp [stopIntercom, h]
  · cases h : s.destroyProcess <;> simp [stopIntercom, h]
  · cases h : s.destroyProcess with
    | none => simp [stopIntercom, h] at hp
    | some pid =>
        simp [stopIntercom, h] at hp
        simp [h, hp]

/-- C3, witness for the amended theorem at the fresh bridge state. -/
theorem stopIntercom_no_pipeline_witness :
    (stopIntercom initIntercomState).1 = initIntercomState ∧
    (stopIntercom initIntercomState).2 =
      [IntercomAction.setPlayback false false] :=
  (stopIntercom_no_pipeline initIntercomState).1 rfl

/-- C10.  Every successful startIntercom call, from any bridge state
(including the very first call), emits exactly two playback-state signals to
the session control handle, in order: first audio false / video false (from
the internal stopIntercom of any prior pipeline) and then audio true /
video false. -/
theorem startIntercom_playback_signals (s : IntercomState) :
    ((startIntercom s).2.filter IntercomAction.isPlayback) =
      [.setPlayback false false, .setPlayback true false] := by
  cases h : s.destroyProcess <;>
    simp [startIntercom, stopIntercom, IntercomAction.isPlayback, h]

/-- C10, witness at the fresh bridge state. -/
theorem startIntercom_playback_signals_witness :
    ((startIntercom initIntercomState).2.filter IntercomAction.isPlayback) =
      [IntercomAction.setPlayback false false,
        IntercomAction.setPlayback true false] :=
  startIntercom_playback_signals initIntercomState

end WrtcToRtsp

namespace WrtcToRtsp

/-! ## Teardown coordinator (cleanup) and terminal-event wiring

Source wiring around the `cleanup` arrow function:
the accepted sink client socket gets a one-shot close listener invoking
cleanup; the promise chain on pcClose (peerConnection.promise followed by
waitClosed) invokes cleanup from its finally clause when it settles — by
resolution (peer session closed) or by rejection (peerConnection deferred
rejected); and the catch on peerConnection.promise invokes cleanup once
more when that deferred rejects.  The body of cleanup itself has NO guard:
each invocation logs and schedules, on the client promise and the three
deferred promises, the destroy / endSession / close / stopIntercom
continuations.  The effect counters below track the scenario in which the
client socket and the three deferreds have resolved, so every scheduled
continuation runs; this is the normal teardown scenario of a bridge whose
startup completed. -/

/-- A terminal event that can reach the teardown wiring. -/
inductive TerminalEvent where
  /-- the sink client socket emitted its close event. -/
  | socketClose
  /-- waitClosed on the peer connection resolved: peer session closed. -/
  | pcClosed
  /-- the startup chain rejected, running the catch on start, which rejects
  the three deferreds; the rejection of the peerConnection deferred then
  settles the pcClose chain (its finally clause fires) and fires the catch
  on peerConnection.promise. -/
  | startupFailed
deriving DecidableEq, Repr

/-- How often the body of cleanup and each of its four continuations ran. -/
structure CleanupEffects where
  bodyRuns : Nat
  destroyCalls : Nat
  endSessionCalls : Nat
  pcCloseCalls : Nat
  stopIntercomCalls : Nat
deriving DecidableEq, Repr

/-- No teardown activity yet. -/
def initEffects : CleanupEffects := ⟨0, 0, 0, 0, 0⟩

/-- Source cleanup body (unguarded): every invocation runs the log and the
four continuation schedulings; with client and deferreds resolved, each
continuation runs once per invocation. -/
def cleanup (e : CleanupEffects) : CleanupEffects :=
  ⟨e.bodyRuns + 1, e.destroyCalls + 1, e.endSessionCalls + 1,
    e.pcCloseCalls + 1, e.stopIntercomCalls + 1⟩

/-- Which of the three one-shot cleanup triggers have already fired: the
socket close listener, the finally clause on the pcClose chain, and the
catch on peerConnection.promise. -/
structure TriggerFlags where
  socketCloseFired : Bool
  pcCloseFinallyFired : Bool
  pcCatchFired : Bool
deriving DecidableEq, Repr

/-- No trigger has fired yet. -/
def initTriggers : TriggerFlags := ⟨false, false, false⟩

/-- Number of one-shot triggers that have fired. -/
def firedCount (t : TriggerFlags) : Nat :=
  (if t.socketCloseFired then 1 else 0) +
    (if t.pcCloseFinallyFired then 1 else 0) +
    (if t.pcCatchFired then 1 else 0)

/-- Delivery of one terminal event to the registered handlers.  Each
promise continuation fires at most once (a settled promise does not settle
again), and each firing invokes the unguarded cleanup. -/
def handleTerminalEvent (st : TriggerFlags × CleanupEffects)
    (ev : TerminalEvent) : TriggerFlags × CleanupEffects :=
  match ev with
  | .socketClose =>
      if st.1.socketCloseFired then st
      else ({ st.1 with socketCloseFired := true }, cleanup st.2)
  | .pcClosed =>
      if st.1.pcCloseFinallyFired then st
      else ({ st.1 with pcCloseFinallyFired := true }, cleanup st.2)
  | .startupFailed =>
      let st1 :=
        if st.1.pcCloseFinallyFired then st
        else ({ st.1 with pcCloseFinallyFired := true }, cleanup st.2)
      if st1.1.pcCatchFired then st1
      else ({ st1.1 with pcCatchFired := true }, cleanup st1.2)

/-- Deliver a sequence of terminal events to a fresh bridge. -/
def runTerminalEvents (events : List TerminalEvent) :
    TriggerFlags × CleanupEffects :=
  events.foldl handleTerminalEvent (initTriggers, initEffects)

/-- All effect counters move in lockstep with the body counter. -/
def effectsLockstep (e : CleanupEffects) : Prop :=
  e.destroyCalls = e.bodyRuns ∧ e.endSessionCalls = e.bodyRuns ∧
    e.pcCloseCalls = e.bodyRuns ∧ e.stopIntercomCalls = e.bodyRuns

lemma firedCount_le_three (t : TriggerFlags) : firedCount t ≤ 3 := by
  unfold firedCount
  split_ifs <;> omega

lemma handleTerminalEvent_step (st : TriggerFlags × CleanupEffects)
    (ev : TerminalEvent) :
    (handleTerminalEvent st ev).2.bodyRuns + firedCount st.1 =
      st.2.bodyRuns + firedCount (handleTerminalEvent st ev).1 ∧
    (effectsLockstep st.2 → effectsLockstep (handleTerminalEvent st ev).2) ∧
    st.2.bodyRuns ≤ (handleTerminalEvent st ev).2.bodyRuns := by
  obtain ⟨⟨a, b, c⟩, e⟩ := st
  cases ev <;> cases a <;> cases b <;> cases c <;>
    simp [handleTerminalEvent, cleanup, firedCount, effectsLockstep] <;>
    omega

lemma runTerminalEvents_from (events : List TerminalEvent) :
    ∀ st : TriggerFlags × CleanupEffects,
      (events.foldl handleTerminalEvent st).2.bodyRuns + firedCount st.1 =
        st.2.bodyRuns + firedCount (events.foldl handleTerminalEvent st).1 ∧
      (effectsLockstep st.2 →
        effectsLockstep (events.foldl handleTerminalEvent st).2) ∧
      st.2.bodyRuns ≤ (events.foldl handleTerminalEvent st).2.bodyRuns := by
  induction events with
  | nil => intro st; simp
  | cons ev rest ih =>
      intro st
      have h1 := handleTerminalEvent_step st ev
      have h2 := ih (handleTerminalEvent st ev)
      simp only [List.foldl_cons]
      exact ⟨by omega, fun hl => h2.2.1 (h1.2.1 hl), by omega⟩

lemma handleTerminalEvent_first (ev : TerminalEvent) :
    1 ≤ (handleTerminalEvent (initTriggers, initEffects) ev).2.bodyRuns := by
  cases ev <;> simp [handleTerminalEvent, initTriggers, initEffects, cleanup]

end WrtcToRtsp

namespace WrtcToRtsp

/-- C1, counterexample.  Deliver two terminal events to a fresh bridge: the
peer session closes (pcClose settles, its finally clause runs cleanup), then
the sink socket close event fires (its listener runs cleanup again).  The
cleanup body runs twice and endSession is invoked twice, contradicting the
claim that the body executes at most once for every combination of terminal
events. -/
theorem cleanup_at_most_once_cex :
    ¬ ((runTerminalEvents
          [TerminalEvent.pcClosed, TerminalEvent.socketClose]).2.bodyRuns ≤ 1 ∧
       (runTerminalEvents
          [TerminalEvent.pcClosed, TerminalEvent.socketClose]).2.endSessionCalls
          ≤ 1) := by
  decide

/-- C1, amended.  The cleanup routine is unguarded: its body, and with it
each of its four teardown effects, executes once per one-shot trigger
firing (socket close listener, pcClose finally clause, peerConnection
rejection catch) — hence at least once when any terminal event occurs and
at most three times per bridge instance, but NOT at most once overall. -/
theorem cleanup_runs_once_per_trigger (events : List TerminalEvent) :
    effectsLockstep (runTerminalEvents events).2 ∧
    (runTerminalEvents events).2.bodyRuns =
      firedCount (runTerminalEvents events).1 ∧
    (runTerminalEvents events).2.bodyRuns ≤ 3 ∧
    (events ≠ [] → 1 ≤ (runTerminalEvents events).2.bodyRuns) := by
  have h := runTerminalEvents_from events (initTriggers, initEffects)
  have hb : firedCount (initTriggers, initEffects).1 = 0 := by
    simp [firedCount, initTriggers]
  have he : (initTriggers, initEffects).2.bodyRuns = 0 := rfl
  have hfc := firedCount_le_three (runTerminalEvents events).1
  refine ⟨h.2.1 (by simp [effectsLockstep, initEffects]), ?_, ?_, ?_⟩
  · have h1 := h.1
    simp only [runTerminalEvents] at h1 hfc ⊢
    omega
  · have h1 := h.1
    simp only [runTerminalEvents] at h1 hfc ⊢
    omega
  · intro hne
    match events, hne with
    | ev :: rest, _ =>
        have h1 := handleTerminalEvent_first ev
        have h2 :=
          (runTerminalEvents_from rest
            (handleTerminalEvent (initTriggers, initEffects) ev)).2.2
        simp only [runTerminalEvents, List.foldl_cons]
        omega

/-- C1, witness for the amended theorem: a single socket-close event. -/
theorem cleanup_runs_once_per_trigger_witness :
    effectsLockstep (runTerminalEvents [TerminalEvent.socketClose]).2 ∧
    1 ≤ (runTerminalEvents [TerminalEvent.socketClose]).2.bodyRuns :=
  ⟨(cleanup_runs_once_per_trigger [TerminalEvent.socketClose]).1,
    (cleanup_runs_once_per_trigger [TerminalEvent.socketClose]).2.2.2
      (by decide)⟩

end WrtcToRtsp

namespace WrtcToRtsp

/-! ## Settlement of the deferred coordination values -/

/-- Modelled from the spec: the Deferred implementation (common, deferred
module) is not among the shown sources.  Per the data model section, a
Deferred holds state pending / resolved / rejected and transitions exactly
once; settlement after settlement is a no-op. -/
inductive DStatus where
  | pending
  | resolved
  | rejected
deriving DecidableEq, Repr

/-- Modelled from the spec: rejecting a Deferred settles it only when it is
still pending (settlement after settlement is a no-op). -/
def rejectDeferred : DStatus → DStatus
  | .pending => .rejected
  | s => s

/-- Settlement states of the three deferred coordination values created at
the top of createRTCPeerConnectionSource. -/
structure Coordination where
  sessionControl : DStatus
  peerConnection : DStatus
  intercom : DStatus
deriving DecidableEq, Repr

/-- Source catch on the start chain: on a startup-chain rejection it rejects
sessionControl, peerConnection and intercom. -/
def startCatch (c : Coordination) : Coordination :=
  ⟨rejectDeferred c.sessionControl, rejectDeferred c.peerConnection,
    rejectDeferred c.intercom⟩

/-- Effect of each terminal event on the settlement of the three deferred
coordination values, from source: the socket close listener and the pcClose
continuations only invoke cleanup, whose body calls promise.then on the
deferreds but never settles one; only a startup-chain rejection (through
the catch on start) rejects them. -/
def settlementAfterEvent (c : Coordination) : TerminalEvent → Coordination
  | .socketClose => c
  | .pcClosed => c
  | .startupFailed => startCatch c

/-- C5, counterexample.  A sink-socket close is a terminal event that
triggers teardown, yet delivering it while all three deferreds are pending
leaves the peerConnection deferred pending, not rejected: its awaiters keep
hanging, contradicting the claim that every teardown-triggering terminal
event rejects all still-pending deferred values. -/
theorem teardown_rejects_pending_cex :
    ¬ ((settlementAfterEvent ⟨.pending, .pending, .pending⟩
          TerminalEvent.socketClose).peerConnection = DStatus.rejected) := by
  decide

/-- C5, amended.  Only a startup-chain rejection settles the coordination
values: it rejects every deferred that is still pending and leaves settled
ones unchanged, so after it none is pending and every awaiter observes a
settlement.  Teardown triggered by socket close or peer-session close does
not itself settle any pending deferred. -/
theorem startCatch_rejects_pending (c : Coordination) :
    ((settlementAfterEvent c TerminalEvent.startupFailed).sessionControl ≠
        DStatus.pending ∧
      (settlementAfterEvent c TerminalEvent.startupFailed).peerConnection ≠
        DStatus.pending ∧
      (settlementAfterEvent c TerminalEvent.startupFailed).intercom ≠
        DStatus.pending) ∧
    (c.peerConnection = DStatus.pending →
      (settlementAfterEvent c TerminalEvent.startupFailed).peerConnection =
        DStatus.rejected) ∧
    (c.sessionControl = DStatus.pending →
      (settlementAfterEvent c TerminalEvent.startupFailed).sessionControl =
        DStatus.rejected) ∧
    (c.intercom = DStatus.pending →
      (settlementAfterEvent c TerminalEvent.startupFailed).intercom =
        DStatus.rejected) ∧
    (c.peerConnection ≠ DStatus.pending →
      (settlementAfterEvent c TerminalEvent.startupFailed).peerConnection =
        c.peerConnection) ∧
    (settlementAfterEvent c TerminalEvent.socketClose = c ∧
      settlementAfterEvent c TerminalEvent.pcClosed = c) := by
  obtain ⟨a, b, d⟩ := c
  cases a <;> cases b <;> cases d <;>
    simp [settlementAfterEvent, startCatch, rejectDeferred]

/-- C5, witness for the amended theorem at the all-pending coordination
state. -/
theorem startCatch_rejects_pending_witness :
    (settlementAfterEvent ⟨.pending, .pending, .pending⟩
        TerminalEvent.startupFailed).peerConnection = DStatus.rejected :=
  (startCatch_rejects_pending ⟨.pending, .pending, .pending⟩).2.1 rfl

end WrtcToRtsp

namespace WrtcToRtsp

/-! ## Sink setup (handleRtspSetup)

Source handleRtspSetup: rejects a description whose type is not answer with
the explicit throw (rtsp setup needs answer sdp); parses the sdp into media
sections (the sdp-utils collaborator, abstracted here as the description
carrying its parsed sections); resolves the audio track binding as the
control attribute of the first audio section and the video track binding as
the control attribute of the first video section — reading .control of an
absent section is the track-resolution failure — and then awaits
handlePlayback on the sink.  An error therefore means the sink playback
handling is never started and no relay output follows. -/

/-- Media kind of a parsed sdp media section. -/
inductive MediaType where
  | audio
  | video
  | application
deriving DecidableEq, Repr

/-- A parsed media section: its kind and its control attribute. -/
structure MSection where
  mediaType : MediaType
  control : String
deriving DecidableEq, Repr

/-- Type field of a session description. -/
inductive DescriptionType where
  | offer
  | answer
  | pranswer
  | rollback
deriving DecidableEq, Repr

/-- A session description, carrying its parsed media sections. -/
structure SessionDescription where
  descType : DescriptionType
  msections : List MSection
deriving DecidableEq, Repr

/-- Failures of sink setup: the explicit non-answer throw, and the failure
on resolving a track binding from an absent media section (the
TrackResolutionError of the design taxonomy). -/
inductive SetupFailure where
  | setupError
  | trackResolutionError
deriving DecidableEq, Repr

/-- Successful sink setup: the two resolved track bindings and the fact
that sink playback handling ran. -/
structure RtspSetupResult where
  audioTrack : String
  videoTrack : String
  playbackStarted : Bool
deriving DecidableEq, Repr

/-- Source handleRtspSetup, as a function from the (parsed) description to
either a setup failure or the resolved bindings with playback started. -/
def handleRtspSetup (d : SessionDescription) :
    Except SetupFailure RtspSetupResult :=
  if d.descType ≠ .answer then
    .error .setupError
  else
    match d.msections.find? (fun m => m.mediaType == MediaType.audio) with
    | none => .error .trackResolutionError
    | some a =>
        match d.msections.find? (fun m => m.mediaType == MediaType.video) with
        | none => .error .trackResolutionError
        | some v => .ok ⟨a.control, v.control, true⟩

lemma find?_of_filter_singleton {α : Type} (p : α → Bool) (a : α) :
    ∀ l : List α, l.filter p = [a] → l.find? p = some a := by
  intro l
  induction l with
  | nil => intro h; simp at h
  | cons x xs ih =>
      intro h
      cases hx : p x with
      | true =>
          rw [List.filter_cons_of_pos hx] at h
          rw [List.find?_cons_of_pos xs hx]
          exact congrArg some (List.cons_eq_cons.mp h).1
      | false =>
          rw [List.filter_cons_of_neg (by simp [hx])] at h
          rw [List.find?_cons_of_neg xs (by simp [hx])]
          exact ih h

lemma find?_of_filter_nil {α : Type} (p : α → Bool) :
    ∀ l : List α, l.filter p = [] → l.find? p = none := by
  intro l h
  rw [List.find?_eq_none]
  intro x hx
  have := List.filter_eq_nil_iff.mp h x hx
  simp [this]

end WrtcToRtsp

namespace WrtcToRtsp

/-- C4.  For every description reaching sink setup with type answer: if its
parsed sections contain exactly one audio and exactly one video section,
both track bindings resolve without error to those sections' control
attributes and playback handling is started; if the video section is
missing, or the audio section is missing, sink setup fails with the
track-resolution failure — and, the result being an error, playback
handling is never started and no relay output follows. -/
theorem handleRtspSetup_resolution (d : SessionDescription) (a v : MSection) :
    d.descType = DescriptionType.answer →
    ((d.msections.filter (fun m => m.mediaType == MediaType.audio) = [a] →
      d.msections.filter (fun m => m.mediaType == MediaType.video) = [v] →
        handleRtspSetup d = .ok ⟨a.control, v.control, true⟩) ∧
     (d.msections.filter (fun m => m.mediaType == MediaType.video) = [] →
        handleRtspSetup d = .error .trackResolutionError) ∧
     (d.msections.filter (fun m => m.mediaType == MediaType.audio) = [] →
        handleRtspSetup d = .error .trackResolutionError)) := by
  intro hans
  refine ⟨fun ha hv => ?_, fun hv => ?_, fun ha => ?_⟩
  · have hfa := find?_of_filter_singleton _ a d.msections ha
    have hfv := find?_of_filter_singleton _ v d.msections hv
    simp [handleRtspSetup, hans, hfa, hfv]
  · have hfv := find?_of_filter_nil
      (fun m => m.mediaType == MediaType.video) d.msections hv
    cases hfa : d.msections.find? (fun m => m.mediaType == MediaType.audio)
      with
    | none => simp [handleRtspSetup, hans, hfa]
    | some a0 => simp [handleRtspSetup, hans, hfa, hfv]
  · have hfa := find?_of_filter_nil
      (fun m => m.mediaType == MediaType.audio) d.msections ha
    simp [handleRtspSetup, hans, hfa]

/-- C4, witness: a two-section answer resolves both bindings, and an
answer with only an audio section fails with the track-resolution
failure. -/
theorem handleRtspSetup_resolution_witness :
    handleRtspSetup
        ⟨DescriptionType.answer,
          [⟨MediaType.audio, "trackID=0"⟩, ⟨MediaType.video, "trackID=1"⟩]⟩ =
      .ok ⟨"trackID=0", "trackID=1", true⟩ ∧
    handleRtspSetup
        ⟨DescriptionType.answer, [⟨MediaType.audio, "trackID=0"⟩]⟩ =
      .error .trackResolutionError :=
  ⟨((handleRtspSetup_resolution
      ⟨DescriptionType.answer,
        [⟨MediaType.audio, "trackID=0"⟩, ⟨MediaType.video, "trackID=1"⟩]⟩
      ⟨MediaType.audio, "trackID=0"⟩ ⟨MediaType.video, "trackID=1"⟩)
      rfl).1 (by decide) (by decide),
   ((handleRtspSetup_resolution
      ⟨DescriptionType.answer, [⟨MediaType.audio, "trackID=0"⟩]⟩
      ⟨MediaType.audio, "trackID=0"⟩ ⟨MediaType.audio, "trackID=0"⟩)
      rfl).2.1 (by decide)⟩

end WrtcToRtsp

namespace WrtcToRtsp

/-! ## createLocalDescription, answer path

Source, branch type = answer: awaits pc.createAnswer(), projects it through
createRawResponse into the description forwarded to handleRtspSetup and
awaited there; then starts pc.setLocalDescription(answer); if a
sendIceCandidate callback was supplied (trickle) the initial answer is
returned immediately; otherwise the set and the gathering promise are
awaited and the finalized pc.localDescription (falling back to the initial
answer when absent) is returned. -/

/-- The awaited steps of the answer path, in program order. -/
inductive AnswerStep where
  | createAnswer
  | rtspSetup
  | setLocalDescriptionStarted
  | setLocalDescriptionAwaited
  | gatheringAwaited
deriving DecidableEq, Repr

/-- The peer-connection facts the answer path consumes: the description
produced by createAnswer, and the localDescription available once
candidate gathering completed (absent when the transport never exposed
one; the source falls back to the initial answer then). -/
structure AnswerPeerConnection where
  answer : SessionDescription
  localDescriptionAfterGathering : Option SessionDescription
deriving DecidableEq, Repr

/-- Source createLocalDescription restricted to its answer branch; trickle
is whether a sendIceCandidate callback was supplied.  Returns the awaited
steps in order, paired with the returned description, or the propagated
sink-setup failure. -/
def createLocalDescriptionAnswer (pc : AnswerPeerConnection)
    (trickle : Bool) :
    Except SetupFailure (List AnswerStep × SessionDescription) :=
  match handleRtspSetup pc.answer with
  | .error e => .error e
  | .ok _ =>
      if trickle then
        .ok ([.createAnswer, .rtspSetup, .setLocalDescriptionStarted],
          pc.answer)
      else
        .ok ([.createAnswer, .rtspSetup, .setLocalDescriptionStarted,
            .setLocalDescriptionAwaited, .gatheringAwaited],
          pc.localDescriptionAfterGathering.getD pc.answer)

/-- C8.  Whenever sink setup accepts the generated answer, the answer path
succeeds and: sink setup is among the completed steps before the return in
both modes; in trickle mode the initial answer is returned and neither the
local-description application nor candidate gathering is awaited; in
non-trickle mode candidate gathering is awaited and the finalized local
description (initial answer if none) is returned.  When sink setup rejects
the generated answer, the answer path fails with that failure. -/
theorem createLocalDescriptionAnswer_spec (pc : AnswerPeerConnection)
    (r : RtspSetupResult) (h : handleRtspSetup pc.answer = .ok r) :
    (∀ trickle : Bool, ∃ steps ret,
      createLocalDescriptionAnswer pc trickle = .ok (steps, ret) ∧
      AnswerStep.rtspSetup ∈ steps ∧
      (trickle = true → ret = pc.answer ∧
        AnswerStep.gatheringAwaited ∉ steps ∧
        AnswerStep.setLocalDescriptionAwaited ∉ steps) ∧
      (trickle = false → AnswerStep.gatheringAwaited ∈ steps ∧
        ret = pc.localDescriptionAfterGathering.getD pc.answer)) ∧
    (∀ e pc2, handleRtspSetup (pc2 : AnswerPeerConnection).answer =
        .error e →
      ∀ trickle : Bool, createLocalDescriptionAnswer pc2 trickle =
        .error e) := by
  constructor
  · intro trickle
    cases trickle with
    | true =>
        refine ⟨[.createAnswer, .rtspSetup, .setLocalDescriptionStarted],
          pc.answer, by simp [createLocalDescriptionAnswer, h], ?_, ?_, ?_⟩
          <;> simp
    | false =>
        refine ⟨[.createAnswer, .rtspSetup, .setLocalDescriptionStarted,
            .setLocalDescriptionAwaited, .gatheringAwaited],
          pc.localDescriptionAfterGathering.getD pc.answer,
          by simp [createLocalDescriptionAnswer, h], ?_, ?_, ?_⟩
          <;> simp
  · intro e pc2 he trickle
    simp [createLocalDescriptionAnswer, he]

/-- C8, witness: a peer connection whose generated answer has one audio and
one video section, in trickle mode. -/
theorem createLocalDescriptionAnswer_spec_witness :
    ∃ steps ret,
      createLocalDescriptionAnswer
          ⟨⟨DescriptionType.answer,
            [⟨MediaType.audio, "trackID=0"⟩, ⟨MediaType.video, "trackID=1"⟩]⟩,
            none⟩ true = .ok (steps, ret) ∧
      AnswerStep.rtspSetup ∈ steps ∧
      (true = true → ret =
          (⟨DescriptionType.answer,
            [⟨MediaType.audio, "trackID=0"⟩,
              ⟨MediaType.video, "trackID=1"⟩]⟩ : SessionDescription) ∧
        AnswerStep.gatheringAwaited ∉ steps ∧
        AnswerStep.setLocalDescriptionAwaited ∉ steps) ∧
      (true = false → AnswerStep.gatheringAwaited ∈ steps ∧
        ret = Option.getD none
          ⟨DescriptionType.answer,
            [⟨MediaType.audio, "trackID=0"⟩,
              ⟨MediaType.video, "trackID=1"⟩]⟩) :=
  (createLocalDescriptionAnswer_spec
    ⟨⟨DescriptionType.answer,
      [⟨MediaType.audio, "trackID=0"⟩, ⟨MediaType.video, "trackID=1"⟩]⟩,
      none⟩
    ⟨"trackID=0", "trackID=1", true⟩ rfl).1 true

end WrtcToRtsp

namespace WrtcToRtsp

/-! ## ensurePeerConnection -/

/-- Settlement of the peerConnection deferred together with its value: the
id of the constructed RTCPeerConnection when resolved.  Modelled from the
spec: the Deferred transitions exactly once; finished is true once it is
settled. -/
inductive PCDeferred where
  | pending
  | resolved (pc : Nat)
  | rejected
deriving DecidableEq, Repr

/-- Modelled from the spec: finished flag of the Deferred. -/
def PCDeferred.finished : PCDeferred → Bool
  | .pending => false
  | _ => true

/-- State read and written by ensurePeerConnection: the peerConnection
deferred and a counter of RTCPeerConnection constructions (doubling as the
id source for new instances). -/
structure PCCreationState where
  pcDeferred : PCDeferred
  created : Nat
deriving DecidableEq, Repr

/-- Bridge invocation start: deferred pending, nothing constructed. -/
def initPCCreation : PCCreationState := ⟨.pending, 0⟩

/-- Source ensurePeerConnection: return immediately when the deferred is
finished; otherwise construct a new RTCPeerConnection and resolve the
deferred with it.  Both setup paths — createLocalDescription with type
offer and setRemoteDescription with an offer — reach it through doSetup. -/
def ensurePeerConnection (s : PCCreationState) : PCCreationState :=
  if s.pcDeferred.finished then s
  else ⟨.resolved s.created, s.created + 1⟩

lemma ensurePeerConnection_fixed :
    ∀ n : Nat, ensurePeerConnection^[n] ⟨.resolved 0, 1⟩ =
      (⟨.resolved 0, 1⟩ : PCCreationState) := by
  intro n
  induction n with
  | zero => rfl
  | succ k ih => rw [Function.iterate_succ_apply, show
      ensurePeerConnection ⟨.resolved 0, 1⟩ =
        (⟨.resolved 0, 1⟩ : PCCreationState) from rfl, ih]

/-- C9.  Once the peerConnection deferred is settled, ensurePeerConnection
is a no-op; and along any number of calls from bridge start, at most one
RTCPeerConnection is ever constructed — after the first call every state is
exactly the one holding the single instance, so both paths that trigger
setup operate on the same peer connection. -/
theorem ensurePeerConnection_once (s : PCCreationState) (n : Nat) :
    (s.pcDeferred.finished = true → ensurePeerConnection s = s) ∧
    (ensurePeerConnection^[n] initPCCreation).created ≤ 1 ∧
    (1 ≤ n → ensurePeerConnection^[n] initPCCreation = ⟨.resolved 0, 1⟩) := by
  have hstep : ∀ m : Nat, 1 ≤ m →
      ensurePeerConnection^[m] initPCCreation =
        (⟨.resolved 0, 1⟩ : PCCreationState) := by
    intro m hm
    match m, hm with
    | k + 1, _ =>
        rw [Function.iterate_succ_apply, show
          ensurePeerConnection initPCCreation =
            (⟨.resolved 0, 1⟩ : PCCreationState) from rfl]
        exact ensurePeerConnection_fixed k
  refine ⟨fun hfin => by simp [ensurePeerConnection, hfin], ?_, hstep n⟩
  cases n with
  | zero => simp [initPCCreation]
  | succ k => rw [hstep (k + 1) (by omega)]

/-- C9, witness: the settled one-instance state and two calls. -/
theorem ensurePeerConnection_once_witness :
    ensurePeerConnection ⟨.resolved 0, 1⟩ =
      (⟨.resolved 0, 1⟩ : PCCreationState) ∧
    ensurePeerConnection^[2] initPCCreation = ⟨.resolved 0, 1⟩ :=
  ⟨(ensurePeerConnection_once ⟨.resolved 0, 1⟩ 2).1 rfl,
    (ensurePeerConnection_once ⟨.resolved 0, 1⟩ 2).2.2 (by omega)⟩

end WrtcToRtsp

namespace WrtcToRtsp

/-! ## Keyframe requester (pictureLossInterval)

Source: inside the once-subscription on the first inbound RTP packet of the
video track, firSequenceNumber starts at 0 and a setInterval of 4000 ms is
installed.  Each firing builds a FullIntraRequest whose fir entry carries
the current firSequenceNumber (post-incremented) and the track ssrc, sends
it wrapped in an RtcpPayloadSpecificFeedback over the dtls transport of the
receiver, and then sends a picture-loss indication for the same ssrc.
waitClosed on the peer connection clears the interval, so an interval that
elapses after the close produces no firing. -/

/-- A feedback packet emitted toward the sender. -/
inductive FeedbackPacket where
  /-- RtcpPayloadSpecificFeedback carrying a FullIntraRequest whose fir
  entry holds this sequence number for this ssrc. -/
  | fullIntraRequest (sequenceNumber : Nat) (ssrc : Nat)
  /-- the picture-loss indication for this ssrc. -/
  | pictureLossIndication (ssrc : Nat)
deriving DecidableEq, Repr

/-- The interval of the source setInterval, in milliseconds. -/
def pictureLossIntervalMs : Nat := 4000

/-- One firing of the interval callback: the full-intra request with the
current counter, then the picture-loss indication. -/
def pictureLossFiring (ssrc counter : Nat) : List FeedbackPacket :=
  [.fullIntraRequest counter ssrc, .pictureLossIndication ssrc]

/-- An event delivered to the armed keyframe requester. -/
inductive TimerEvent where
  /-- one 4000 ms interval elapsed. -/
  | tick
  /-- waitClosed resolved: the peer session transitioned to closed, and
  clearInterval cancels the timer. -/
  | close
deriving DecidableEq, Repr

/-- State of the armed keyframe requester: whether clearInterval ran, the
firSequenceNumber counter, and the feedback packets sent so far. -/
structure TimerState where
  canceled : Bool
  firSequenceNumber : Nat
  sent : List FeedbackPacket
deriving DecidableEq, Repr

/-- State right after arming on the first video packet. -/
def initTimerState : TimerState := ⟨false, 0, []⟩

/-- Delivery of one event to the armed keyframe requester. -/
def timerStep (ssrc : Nat) (s : TimerState) : TimerEvent → TimerState
  | .tick =>
      if s.canceled then s
      else
        ⟨false, s.firSequenceNumber + 1,
          s.sent ++ pictureLossFiring ssrc s.firSequenceNumber⟩
  | .close => ⟨true, s.firSequenceNumber, s.sent⟩

/-- Run the armed keyframe requester over a sequence of events. -/
def runTimer (ssrc : Nat) (events : List TimerEvent) : TimerState :=
  events.foldl (timerStep ssrc) initTimerState

/-- Number of interval firings a schedule allows: the ticks that elapse
before the first close event. -/
def ticksBeforeClose : List TimerEvent → Nat
  | [] => 0
  | .tick :: rest => ticksBeforeClose rest + 1
  | .close :: _ => 0

/-- The packets emitted by n consecutive firings starting at a counter. -/
def firingsFrom (ssrc counter : Nat) : Nat → List FeedbackPacket
  | 0 => []
  | n + 1 => pictureLossFiring ssrc counter ++ firingsFrom ssrc (counter + 1) n

lemma firingsFrom_length (ssrc counter n : Nat) :
    (firingsFrom ssrc counter n).length = 2 * n := by
  induction n generalizing counter with
  | zero => rfl
  | succ k ih =>
      simp only [firingsFrom, pictureLossFiring, List.length_append,
        List.length_cons, List.length_nil, ih]
      omega

lemma runTimer_from (ssrc : Nat) :
    ∀ (events : List TimerEvent) (s : TimerState),
      (s.canceled = false →
        (events.foldl (timerStep ssrc) s).sent =
          s.sent ++
            firingsFrom ssrc s.firSequenceNumber (ticksBeforeClose events)) ∧
      (s.canceled = true →
        (events.foldl (timerStep ssrc) s).sent = s.sent) := by
  intro events
  induction events with
  | nil => intro s; simp [ticksBeforeClose, firingsFrom]
  | cons ev rest ih =>
      intro s
      constructor
      · intro hc
        cases ev with
        | tick =>
            have hstep : timerStep ssrc s TimerEvent.tick =
                ⟨false, s.firSequenceNumber + 1,
                  s.sent ++ pictureLossFiring ssrc s.firSequenceNumber⟩ := by
              simp [timerStep, hc]
            rw [List.foldl_cons, hstep, (ih _).1 rfl]
            simp [ticksBeforeClose, firingsFrom]
        | close =>
            have hstep : timerStep ssrc s TimerEvent.close =
                ⟨true, s.firSequenceNumber, s.sent⟩ := rfl
            rw [List.foldl_cons, hstep, (ih _).2 rfl]
            simp [ticksBeforeClose, firingsFrom]
      · intro hc
        cases ev with
        | tick =>
            have hstep : timerStep ssrc s TimerEvent.tick = s := by
              simp [timerStep, hc]
            rw [List.foldl_cons, hstep]
            exact (ih s).2 hc
        | close =>
            have hstep : timerStep ssrc s TimerEvent.close =
                ⟨true, s.firSequenceNumber, s.sent⟩ := rfl
            rw [List.foldl_cons, hstep, (ih _).2 rfl]

lemma firingsFrom_get (ssrc : Nat) :
    ∀ (n counter k : Nat), k < n →
      (firingsFrom ssrc counter n).get? (2 * k) =
        some (.fullIntraRequest (counter + k) ssrc) ∧
      (firingsFrom ssrc counter n).get? (2 * k + 1) =
        some (.pictureLossIndication ssrc) := by
  intro n
  induction n with
  | zero => intro counter k hk; omega
  | succ m ih =>
      intro counter k hk
      cases k with
      | zero => simp [firingsFrom, pictureLossFiring]
      | succ j =>
          have h2 : 2 * (j + 1) = 2 * j + 1 + 1 := by omega
          rw [h2]
          simp only [firingsFrom, pictureLossFiring, List.cons_append,
            List.nil_append, List.get?_cons_succ]
          have := ih (counter + 1) j (by omega)
          rw [this.1, this.2]
          constructor
          · rw [show counter + 1 + j = counter + (j + 1) by omega]
          · rfl

end WrtcToRtsp

namespace WrtcToRtsp

/-- C6.  Arm the keyframe requester (first inbound video RTP packet seen)
and deliver any schedule of interval elapses and the session close: the
interval policy is 4000 ms; each firing before the close emits exactly two
feedback packets — the full-intra request carrying the counter value of
that firing (0, 1, 2, ... in firing order) followed by the picture-loss
indication — and the total output is exactly two packets per pre-close
firing, so intervals elapsing after the close (clearInterval having run)
emit nothing. -/
theorem pictureLossInterval_spec (ssrc : Nat) (events : List TimerEvent) :
    pictureLossIntervalMs = 4000 ∧
    (runTimer ssrc events).sent.length = 2 * ticksBeforeClose events ∧
    ∀ k : Nat, k < ticksBeforeClose events →
      (runTimer ssrc events).sent.get? (2 * k) =
        some (.fullIntraRequest k ssrc) ∧
      (runTimer ssrc events).sent.get? (2 * k + 1) =
        some (.pictureLossIndication ssrc) := by
  have hrun : (runTimer ssrc events).sent =
      firingsFrom ssrc 0 (ticksBeforeClose events) := by
    have := (runTimer_from ssrc events initTimerState).1 rfl
    simpa [runTimer, initTimerState] using this
  rw [hrun]
  refine ⟨rfl, firingsFrom_length ssrc 0 _, fun k hk => ?_⟩
  have := firingsFrom_get ssrc (ticksBeforeClose events) 0 k hk
  simpa using this

/-- C6, witness: two intervals elapse, the session closes, one more
interval elapses; the second firing carries counter 1 and the post-close
interval emits nothing. -/
theorem pictureLossInterval_spec_witness :
    1 < ticksBeforeClose
        [TimerEvent.tick, TimerEvent.tick, TimerEvent.close,
          TimerEvent.tick] ∧
    (runTimer 7 [TimerEvent.tick, TimerEvent.tick, TimerEvent.close,
        TimerEvent.tick]).sent.get? (2 * 1) =
      some (FeedbackPacket.fullIntraRequest 1 7) ∧
    (runTimer 7 [TimerEvent.tick, TimerEvent.tick, TimerEvent.close,
        TimerEvent.tick]).sent.get? (2 * 1 + 1) =
      some (FeedbackPacket.pictureLossIndication 7) :=
  ⟨by decide,
    (pictureLossInterval_spec 7
      [TimerEvent.tick, TimerEvent.tick, TimerEvent.close,
        TimerEvent.tick]).2.2 1 (by decide)⟩

end WrtcToRtsp

namespace WrtcToRtsp

/-! ## Media relay (per-track forwarding in doSetup)

Source: for a bound track, the onReceiveRtp subscription forwards
rtspServer.sendTrack(track, rtp.serialize(), false) and the onReceiveRtcp
subscription forwards rtspServer.sendTrack(track, rtcp.serialize(), true),
where track is that binding's sink channel id.  The serialized bytes are
the packet's wire bytes as received from the transport; the subscriptions
perform no other transformation, filtering or reordering. -/

/-- An inbound packet of one track, carrying its wire bytes. -/
inductive InboundPacket where
  /-- a media packet delivered by onReceiveRtp. -/
  | rtp (bytes : List Nat)
  /-- a feedback packet delivered by onReceiveRtcp. -/
  | rtcp (bytes : List Nat)
deriving DecidableEq, Repr

/-- Wire bytes of an inbound packet. -/
def InboundPacket.bytes : InboundPacket → List Nat
  | .rtp b => b
  | .rtcp b => b

/-- Whether the packet arrived on the feedback subscription. -/
def InboundPacket.isFeedbackPacket : InboundPacket → Bool
  | .rtp _ => false
  | .rtcp _ => true

/-- One invocation of rtspServer.sendTrack. -/
structure SendTrackCall where
  channel : String
  bytes : List Nat
  isFeedback : Bool
deriving DecidableEq, Repr

/-- The sendTrack invocation the relay performs for one inbound packet. -/
def relayPacket (channel : String) (p : InboundPacket) : SendTrackCall :=
  ⟨channel, p.bytes, p.isFeedbackPacket⟩

/-- The relay output of a bound track for its inbound packets in arrival
order. -/
def relayTrack (channel : String) (packets : List InboundPacket) :
    List SendTrackCall :=
  packets.map (relayPacket channel)

/-- C7.  For every bound track and inbound packet sequence, the relay
emits exactly one sendTrack call per inbound packet, in arrival order: the
i-th call carries the i-th packet's wire bytes unchanged, is addressed to
the track's sink channel id, and is tagged as feedback exactly when the
packet arrived on the feedback subscription. -/
theorem relayTrack_spec (channel : String) (packets : List InboundPacket) :
    (relayTrack channel packets).length = packets.length ∧
    ∀ i : Nat, i < packets.length →
      ∃ c p, (relayTrack channel packets).get? i = some c ∧
        packets.get? i = some p ∧
        c.channel = channel ∧ c.bytes = p.bytes ∧
        c.isFeedback = p.isFeedbackPacket := by
  refine ⟨List.length_map _ _, fun i hi => ?_⟩
  cases hp : packets.get? i with
  | none =>
      rw [List.get?_eq_none] at hp
      omega
  | some p =>
      refine ⟨relayPacket channel p, p, ?_, rfl, rfl, rfl, rfl⟩
      rw [relayTrack, List.get?_eq_getElem?, List.getElem?_map,
        ← List.get?_eq_getElem?, hp]
      rfl

/-- C7, witness: an RTP packet and a feedback packet of the video track. -/
theorem relayTrack_spec_witness :
    ∃ c p,
      (relayTrack "trackID=1"
          [InboundPacket.rtp [1, 2, 3], InboundPacket.rtcp [4, 5]]).get? 1 =
        some c ∧
      ([InboundPacket.rtp [1, 2, 3], InboundPacket.rtcp [4, 5]]).get? 1 =
        some p ∧
      c.channel = "trackID=1" ∧ c.bytes = p.bytes ∧
      c.isFeedback = p.isFeedbackPacket :=
  (relayTrack_spec "trackID=1"
    [InboundPacket.rtp [1, 2, 3], InboundPacket.rtcp [4, 5]]).2 1
    (by decide)

end WrtcToRtsp
